import Mathlib

/-!
Shallow embedding of the racing-game simulation loops of
`src/components/RacingGame.tsx` (2D canvas variant) and the `RacingGame3D`
component of `src/components/Car3D.tsx` (3D variant, extended with
nitro/health/rank).  JavaScript numbers are modelled as exact rationals;
`Math.random()` results are passed in explicitly as oracle inputs, each
expected to lie in `[0, 1)` exactly as the JS generator guarantees.
Out-of-range array indexing (`LANES[i]` for `i` outside the array) yields
`undefined` in JavaScript; it is modelled by `Option` with `none` for
`undefined`, and every numeric comparison against `undefined`/`NaN` is
`false`, matching JS semantics.
-/

namespace Racing

/-- The five game modes (`GameMode` in both source files). -/
inductive GameMode where
  | classic | timeAttack | quickRace | endless | competition
deriving DecidableEq, Repr

/-- Snapshot of the held-key set, restricted to the key codes the game
loops read (`ArrowLeft`, `ArrowRight`, `ArrowUp`, `ArrowDown`,
`ShiftLeft`). -/
structure Keys where
  left : Bool
  right : Bool
  up : Bool
  down : Bool
  shift : Bool
deriving DecidableEq, Repr

/-- Oracle values standing for the `Math.random()` calls an enemy update may
consume during one frame: respawn depth, respawn lane, respawn speed,
respawn color, and the aggressive-AI blocking roll. -/
structure ERand where
  depthR : ℚ
  laneR : ℚ
  speedR : ℚ
  colorR : ℚ
  aggroR : ℚ
deriving DecidableEq, Repr

/-- Oracle values standing for the `Math.random()` calls consumed when one
enemy is created by `initGame`: initial x-lane draw, initial speed draw,
initial `lane` field draw, color draw, aggressiveness draw. -/
structure IRand where
  xR : ℚ
  speedR : ℚ
  laneR : ℚ
  colorR : ℚ
  aggrR : ℚ
deriving DecidableEq, Repr

/-- A `Math.random()` result: a rational in `[0, 1)`. -/
def ValidR (r : ℚ) : Prop := 0 ≤ r ∧ r < 1

/-- All five oracle components of an `ERand` are valid random draws. -/
def ValidER (r : ERand) : Prop :=
  ValidR r.depthR ∧ ValidR r.laneR ∧ ValidR r.speedR ∧ ValidR r.colorR ∧ ValidR r.aggroR

/-- All five oracle components of an `IRand` are valid random draws. -/
def ValidIR (r : IRand) : Prop :=
  ValidR r.xR ∧ ValidR r.speedR ∧ ValidR r.laneR ∧ ValidR r.colorR ∧ ValidR r.aggrR

instance (r : ℚ) : Decidable (ValidR r) := by unfold ValidR; infer_instance
instance (r : ERand) : Decidable (ValidER r) := by unfold ValidER; infer_instance
instance (r : IRand) : Decidable (ValidIR r) := by unfold ValidIR; infer_instance

/-- One frame of input to a game loop: the sampled held-key set plus the
per-enemy random oracles (indexed by the enemy's position in the list). -/
structure Input where
  keys : Keys
  rands : ℕ → ERand

/-- JavaScript `%` for the non-negative operands the loops use
(`roadOffset` wrap): `a % b = a - b * trunc(a / b)`, which for `a ≥ 0`,
`b > 0` coincides with flooring division. -/
def jsMod (a b : ℚ) : ℚ := a - b * ⌊a / b⌋

/-- JavaScript `Math.round`: round half toward positive infinity. -/
def jsRound (q : ℚ) : ℤ := ⌊q + 1/2⌋

/-! ## 3D variant (`RacingGame3D` in `src/components/Car3D.tsx`) -/

/-- `const LANES = [-2, 0, 2]` of the 3D game. -/
def LANES3 : List ℚ := [-2, 0, 2]

/-- `LANES[i]` with JS semantics: `undefined` (here `none`) outside `0..2`. -/
def lanes3Get (i : ℤ) : Option ℚ :=
  if 0 ≤ i then LANES3.get? i.toNat else none

/-- `const ENEMY_COLORS = [...]` of the 3D game. -/
def ENEMY_COLORS : List String :=
  ["#ff4444", "#44ff44", "#4444ff", "#ffff44", "#ff44ff", "#44ffff"]

/-- `ENEMY_COLORS[i]` with JS semantics. -/
def colorsGet (i : ℤ) : Option String :=
  if 0 ≤ i then ENEMY_COLORS.get? i.toNat else none

/-- An enemy car of the 3D loop.  `x` is `Option` because JS can store
`undefined` in it (via out-of-range `LANES` indexing). -/
structure Enemy3 where
  x : Option ℚ
  z : ℚ
  speed : ℚ
  lane : ℤ
  color : Option String
  aggressiveness : ℚ
deriving DecidableEq, Repr

/-- The 3D `GameState`. -/
structure GameState3 where
  mode : GameMode
  score : ℚ
  time : ℚ
  speed : ℚ
  position : ℚ
  lap : ℕ
  isPlaying : Bool
  isPaused : Bool
  gameOver : Bool
  playerX : ℚ
  enemies : List Enemy3
  roadOffset : ℚ
  countdown : ℕ
  nitroBoost : ℚ
  health : ℚ
  perfectDriving : ℚ
  lastCollision : ℚ
  competitionRank : ℕ
deriving DecidableEq, Repr

/-- The per-mode configuration record of the 3D game.  `timeLimit` and
`targetScore` are `Option` with `none` standing for `Infinity`. -/
structure Config3 where
  timeLimit : Option ℚ
  targetScore : Option ℚ
  enemies : ℕ
  maxSpeed : ℚ
  hasNitro : Bool
  hasHealth : Bool
  aggressiveAI : Bool
deriving DecidableEq, Repr

/-- `getModeConfig` of `RacingGame3D`. -/
def getModeConfig3 : GameMode → Config3
  | .timeAttack =>
      { timeLimit := some 60, targetScore := some 10000, enemies := 8,
        maxSpeed := 15, hasNitro := false, hasHealth := false, aggressiveAI := false }
  | .quickRace =>
      { timeLimit := some 30, targetScore := some 5000, enemies := 6,
        maxSpeed := 12, hasNitro := false, hasHealth := false, aggressiveAI := false }
  | .competition =>
      { timeLimit := some 120, targetScore := some 25000, enemies := 15,
        maxSpeed := 20, hasNitro := true, hasHealth := true, aggressiveAI := true }
  | .endless =>
      { timeLimit := none, targetScore := none, enemies := 10,
        maxSpeed := 18, hasNitro := false, hasHealth := false, aggressiveAI := false }
  | .classic =>
      { timeLimit := some 90, targetScore := some 15000, enemies := 8,
        maxSpeed := 15, hasNitro := false, hasHealth := false, aggressiveAI := false }

/-- Lateral input handling of the 3D loop: two sequential guarded `if`s
(`ArrowLeft && newPlayerX > -4`, then `ArrowRight && newPlayerX < 4`). -/
def updPlayerX3 (k : Keys) (px : ℚ) : ℚ :=
  let p1 := if k.left ∧ px > -4 then px - 1/10 else px
  if k.right ∧ p1 < 4 then p1 + 1/10 else p1

/-- Longitudinal input handling of the 3D loop (pre-nitro): accelerate
`+0.3` capped at `config.maxSpeed`; brake `-0.5` floored at `2`; otherwise
decay `-0.1` floored at `5`. -/
def updSpeedKeys3 (cfg : Config3) (k : Keys) (v : ℚ) : ℚ :=
  if k.up then min (v + 3/10) cfg.maxSpeed
  else if k.down then max (v - 1/2) 2
  else max (v - 1/10) 5

/-- Nitro handling of the 3D loop: returns the adjusted speed, the new nitro
meter, and whether nitro was consumed this frame. -/
def updNitro3 (cfg : Config3) (k : Keys) (v nitro : ℚ) : ℚ × ℚ × Bool :=
  if cfg.hasNitro ∧ k.shift ∧ nitro > 0 then
    (min (v + 4/5) (cfg.maxSpeed + 5), max (nitro - 1/2) 0, true)
  else if cfg.hasNitro then
    (v, min (nitro + 1/10) 100, false)
  else
    (v, nitro, false)

/-- Per-enemy update of the 3D loop, lines 429-463 of `Car3D.tsx`: advance
by own speed; respawn behind the player with fresh random lane, speed and
color when past `z > 15`; otherwise possibly shift one lane toward the
player (aggressive AI). -/
def updEnemy3 (cfg : Config3) (newPlayerX : ℚ) (r : ERand) (e : Enemy3) : Enemy3 :=
  let newZ := e.z + e.speed
  if newZ > 15 then
    let lane' : ℤ := ⌊r.laneR * 3⌋
    { e with
        x := lanes3Get lane',
        z := -20 - r.depthR * 10,
        lane := lane',
        speed := 3 + r.speedR * 3,
        color := colorsGet ⌊r.colorR * 6⌋ }
  else
    let shifted :=
      if cfg.aggressiveAI ∧ e.aggressiveness ≠ 0 ∧ |newZ - 0| < 5 ∧
          r.aggroR < e.aggressiveness * (1/10) then
        let playerLane : ℤ := jsRound ((newPlayerX + 2) / 2)
        if |e.lane - playerLane| = 1 then (playerLane, lanes3Get playerLane)
        else (e.lane, e.x)
      else (e.lane, e.x)
    { e with x := shifted.2, z := newZ, lane := shifted.1 }

/-- Axis-aligned rectangle overlap test of the 3D loop between the player
rectangle (`x: newPlayerX - 0.4, z: -0.8, 0.8 × 1.6`) and one enemy
rectangle (`x: enemy.x - 0.4, z: enemy.z - 0.8, 0.8 × 1.6`).  An enemy with
`undefined` x never overlaps (NaN comparisons are false in JS). -/
def rectOverlap3 (px : ℚ) (e : Enemy3) : Bool :=
  match e.x with
  | none => false
  | some ex =>
      decide (px - 2/5 < (ex - 2/5) + 4/5) &&
      decide (px - 2/5 + 4/5 > ex - 2/5) &&
      decide ((-4/5 : ℚ) < (e.z - 4/5) + 8/5) &&
      decide ((-4/5 : ℚ) + 8/5 > e.z - 4/5)

/-- New lateral position computed by one 3D frame. -/
def newPlayerX3 (s : GameState3) (i : Input) : ℚ := updPlayerX3 i.keys s.playerX

/-- Speed, nitro meter, and nitro-consumption flag computed by one 3D
frame. -/
def speedNitro3 (s : GameState3) (i : Input) : ℚ × ℚ × Bool :=
  let cfg := getModeConfig3 s.mode
  updNitro3 cfg i.keys (updSpeedKeys3 cfg i.keys s.speed) s.nitroBoost

/-- New speed computed by one 3D frame (after nitro). -/
def newSpeed3 (s : GameState3) (i : Input) : ℚ := (speedNitro3 s i).1

/-- Whether nitro was consumed on this 3D frame. -/
def usedNitro3 (s : GameState3) (i : Input) : Bool := (speedNitro3 s i).2.2

/-- New perfect-driving counter of one 3D frame: increments when centered
(`|newPlayerX| < 1`) and fast (`newSpeed > maxSpeed * 0.8`). -/
def newPerfect3 (s : GameState3) (i : Input) : ℚ :=
  if |newPlayerX3 s i| < 1 ∧ newSpeed3 s i > (getModeConfig3 s.mode).maxSpeed * (8/10)
  then s.perfectDriving + 1 else s.perfectDriving

/-- The updated enemy list of one 3D frame. -/
def newEnemies3 (s : GameState3) (i : Input) : List Enemy3 :=
  s.enemies.mapIdx (fun j e => updEnemy3 (getModeConfig3 s.mode) (newPlayerX3 s i) (i.rands j) e)

/-- Whether the collision scan of one 3D frame detects any overlap. -/
def collision3 (s : GameState3) (i : Input) : Bool :=
  (newEnemies3 s i).any (rectOverlap3 (newPlayerX3 s i))

/-- The score multiplier of one 3D frame: `1`, plus `0.5` for nitro use,
`0.3` for a perfect-driving counter above `60`, `0.2` for speed above 90%
of the mode maximum. -/
def scoreMult3 (s : GameState3) (i : Input) : ℚ :=
  let cfg := getModeConfig3 s.mode
  1 + (if cfg.hasNitro ∧ usedNitro3 s i = true then (1/2 : ℚ) else 0)
    + (if newPerfect3 s i > 60 then (3/10 : ℚ) else 0)
    + (if newSpeed3 s i > cfg.maxSpeed * (9/10) then (1/5 : ℚ) else 0)

/-- The body of `gameLoop` of `RacingGame3D` (lines 383-538 of
`Car3D.tsx`): one unconditional frame update on a state already known to be
playing and unpaused. -/
def step3 (s : GameState3) (i : Input) : GameState3 :=
  let cfg := getModeConfig3 s.mode
  let newTime := s.time + 1/60
  let px := newPlayerX3 s i
  let v := newSpeed3 s i
  let s1 : GameState3 :=
    { s with
        time := newTime,
        playerX := px,
        speed := v,
        nitroBoost := (speedNitro3 s i).2.1,
        position := s.position + v,
        roadOffset := jsMod (s.roadOffset + v) 10,
        perfectDriving := newPerfect3 s i,
        enemies := newEnemies3 s i }
  let s2 :=
    if collision3 s i = true then
      let s1' := { s1 with lastCollision := newTime }
      if cfg.hasHealth then
        let h' := max (s.health - 10) 0
        if h' ≤ 0 then
          { s1' with health := h', gameOver := true, isPlaying := false }
        else { s1' with health := h' }
      else { s1' with gameOver := true, isPlaying := false }
    else s1
  let s3 := { s2 with score := s2.score + v * 10 * scoreMult3 s i }
  let rank := 1 + s3.enemies.countP (fun e => decide (e.z > 0))
  let s4 :=
    if cfg.aggressiveAI then { s3 with competitionRank := min rank (cfg.enemies + 1) }
    else s3
  match cfg.timeLimit with
  | some tl => if s4.time ≥ tl then { s4 with gameOver := true, isPlaying := false } else s4
  | none => s4

/-- One invocation of the 3D frame machinery: the `useEffect` guard
(`if (!gameState.isPlaying || gameState.isPaused) return`) means the frame
body only runs on playing, unpaused states; otherwise nothing happens. -/
def advance3 (s : GameState3) (i : Input) : GameState3 :=
  if s.isPlaying = true ∧ s.isPaused = false then step3 s i else s

/-- One invocation together with its `onGameEnd` emission: the loop body
calls `onGameEnd(newState.score, newState.time)` whenever the post-frame
state has `gameOver` set; no frame body runs (hence nothing is emitted)
when the state is not playing or is paused. -/
def advet3 (s : GameState3) (i : Input) : GameState3 × Option (ℚ × ℚ) :=
  if s.isPlaying = true ∧ s.isPaused = false then
    let s' := step3 s i
    (s', if s'.gameOver = true then some (s'.score, s'.time) else none)
  else (s, none)

/-- Run the 3D loop over a list of frame inputs. -/
def run3 (s : GameState3) : List Input → GameState3
  | [] => s
  | i :: is => run3 (advance3 s i) is

/-- All `onGameEnd(score, time)` notifications emitted while running the 3D
loop over a list of frame inputs. -/
def emits3 (s : GameState3) : List Input → List (ℚ × ℚ)
  | [] => []
  | i :: is => (advet3 s i).2.toList ++ emits3 (advet3 s i).1 is

/-- One enemy created by `initGame` of `RacingGame3D`. -/
def initEnemy3 (cfg : Config3) (idx : ℕ) (r : IRand) : Enemy3 :=
  { x := lanes3Get ⌊r.xR * 3⌋,
    z := -(idx : ℚ) * 3 - 5,
    speed := 3 + r.speedR * 2,
    lane := ⌊r.laneR * 3⌋,
    color := colorsGet ⌊r.colorR * 6⌋,
    aggressiveness := if cfg.aggressiveAI then r.aggrR * (1/2) + 1/2 else 1/5 }

/-- The state `initGame` of `RacingGame3D` produces (not yet playing,
countdown pending). -/
def initGame3 (mode : GameMode) (r : ℕ → IRand) : GameState3 :=
  let cfg := getModeConfig3 mode
  { mode := mode, score := 0, time := 0, speed := 5, position := 0, lap := 1,
    isPlaying := false, isPaused := false, gameOver := false, playerX := 0,
    enemies := (List.range cfg.enemies).map fun j => initEnemy3 cfg j (r j),
    roadOffset := 0, countdown := 3, nitroBoost := 100, health := 100,
    perfectDriving := 0, lastCollision := 0, competitionRank := 1 }

/-- The state in which simulation frames begin: `initGame` followed by the
countdown completion (`isPlaying := true, countdown := 0`). -/
def startGame3 (mode : GameMode) (r : ℕ → IRand) : GameState3 :=
  { initGame3 mode r with isPlaying := true, countdown := 0 }

/-! ## 2D variant (`src/components/RacingGame.tsx`) -/

/-- `const LANES = [-150, -50, 50, 150]` of the 2D game. -/
def LANES2 : List ℚ := [-150, -50, 50, 150]

/-- `LANES[i]` of the 2D game with JS semantics. -/
def lanes2Get (i : ℤ) : Option ℚ :=
  if 0 ≤ i then LANES2.get? i.toNat else none

/-- An enemy car of the 2D loop (`x`, screen-`y`, own speed, lane field). -/
structure Enemy2 where
  x : Option ℚ
  y : ℚ
  speed : ℚ
  lane : ℤ
deriving DecidableEq, Repr

/-- The 2D `GameState`. -/
structure GameState2 where
  mode : GameMode
  score : ℚ
  time : ℚ
  speed : ℚ
  position : ℚ
  lap : ℕ
  isPlaying : Bool
  isPaused : Bool
  gameOver : Bool
  playerX : ℚ
  enemies : List Enemy2
  roadOffset : ℚ
  countdown : ℕ
deriving DecidableEq, Repr

/-- The per-mode configuration record of the 2D game. -/
structure Config2 where
  timeLimit : Option ℚ
  targetScore : Option ℚ
  enemies : ℕ
deriving DecidableEq, Repr

/-- `getModeConfig` of the 2D `RacingGame`. -/
def getModeConfig2 : GameMode → Config2
  | .timeAttack => { timeLimit := some 60, targetScore := some 10000, enemies := 8 }
  | .quickRace => { timeLimit := some 30, targetScore := some 5000, enemies := 6 }
  | .competition => { timeLimit := some 120, targetScore := some 25000, enemies := 12 }
  | .endless => { timeLimit := none, targetScore := none, enemies := 10 }
  | .classic => { timeLimit := some 90, targetScore := some 15000, enemies := 8 }

/-- Lateral input handling of the 2D loop: step `PLAYER_SPEED = 5` within
`±(ROAD_WIDTH/2 - 40) = ±160`. -/
def updPlayerX2 (k : Keys) (px : ℚ) : ℚ :=
  let p1 := if k.left ∧ px > -160 then px - 5 else px
  if k.right ∧ p1 < 160 then p1 + 5 else p1

/-- Longitudinal input handling of the 2D loop: accelerate `+0.5` capped at
`15`; brake `-1` floored at `0`; otherwise decay `-0.2` floored at `5`. -/
def updSpeed2 (k : Keys) (v : ℚ) : ℚ :=
  if k.up then min (v + 1/2) 15
  else if k.down then max (v - 1) 0
  else max (v - 1/5) 5

/-- Per-enemy update of the 2D loop (lines 211-223 of `RacingGame.tsx`):
advance down-screen by own speed plus half the player speed; recycle above
`GAME_HEIGHT + 100 = 700` to a random depth `-200 - rand*500` with a fresh
random x-lane and speed (the `lane` field is left unchanged). -/
def updEnemy2 (newSpeed : ℚ) (r : ERand) (e : Enemy2) : Enemy2 :=
  let newY := e.y + e.speed + newSpeed * (1/2)
  if newY > 700 then
    { e with
        x := lanes2Get ⌊r.laneR * 4⌋,
        y := -200 - r.depthR * 500,
        speed := 3 + r.speedR * 3 }
  else { e with y := newY }

/-- Rectangle overlap test of the 2D loop between the player rectangle
(`x: newPlayerX - 25, y: 480, 50 × 80`) and one enemy rectangle
(`x: enemy.x - 25, y: enemy.y, 50 × 80`). -/
def rectOverlap2 (px : ℚ) (e : Enemy2) : Bool :=
  match e.x with
  | none => false
  | some ex =>
      decide (px - 25 < (ex - 25) + 50) &&
      decide (px - 25 + 50 > ex - 25) &&
      decide ((480 : ℚ) < e.y + 80) &&
      decide ((480 : ℚ) + 80 > e.y)

/-- New lateral position computed by one 2D frame. -/
def newPlayerX2 (s : GameState2) (i : Input) : ℚ := updPlayerX2 i.keys s.playerX

/-- New speed computed by one 2D frame. -/
def newSpeed2 (s : GameState2) (i : Input) : ℚ := updSpeed2 i.keys s.speed

/-- The updated enemy list of one 2D frame. -/
def newEnemies2 (s : GameState2) (i : Input) : List Enemy2 :=
  s.enemies.mapIdx (fun j e => updEnemy2 (newSpeed2 s i) (i.rands j) e)

/-- Whether the collision scan of one 2D frame detects any overlap. -/
def collision2 (s : GameState2) (i : Input) : Bool :=
  (newEnemies2 s i).any (rectOverlap2 (newPlayerX2 s i))

/-- The body of `gameLoop` of the 2D `RacingGame` (lines 180-266 of
`RacingGame.tsx`). -/
def step2 (s : GameState2) (i : Input) : GameState2 :=
  let cfg := getModeConfig2 s.mode
  let v := newSpeed2 s i
  let s1 : GameState2 :=
    { s with
        time := s.time + 1/60,
        playerX := newPlayerX2 s i,
        speed := v,
        position := s.position + v,
        roadOffset := jsMod (s.roadOffset + v) 100,
        enemies := newEnemies2 s i }
  let s2 :=
    if collision2 s i = true then { s1 with gameOver := true, isPlaying := false }
    else s1
  let s3 := { s2 with score := s2.score + v * 10 }
  match cfg.timeLimit with
  | some tl => if s3.time ≥ tl then { s3 with gameOver := true, isPlaying := false } else s3
  | none => s3

/-- One invocation of the 2D frame machinery, guarded exactly like the 3D
one by `isPlaying && !isPaused`. -/
def advance2 (s : GameState2) (i : Input) : GameState2 :=
  if s.isPlaying = true ∧ s.isPaused = false then step2 s i else s

/-- One 2D invocation together with its `onGameEnd` emission. -/
def advet2 (s : GameState2) (i : Input) : GameState2 × Option (ℚ × ℚ) :=
  if s.isPlaying = true ∧ s.isPaused = false then
    let s' := step2 s i
    (s', if s'.gameOver = true then some (s'.score, s'.time) else none)
  else (s, none)

/-- Run the 2D loop over a list of frame inputs. -/
def run2 (s : GameState2) : List Input → GameState2
  | [] => s
  | i :: is => run2 (advance2 s i) is

/-- All `onGameEnd` notifications emitted while running the 2D loop. -/
def emits2 (s : GameState2) : List Input → List (ℚ × ℚ)
  | [] => []
  | i :: is => (advet2 s i).2.toList ++ emits2 (advet2 s i).1 is

/-- One enemy created by `initGame` of the 2D `RacingGame`. -/
def initEnemy2 (idx : ℕ) (r : IRand) : Enemy2 :=
  { x := lanes2Get ⌊r.xR * 4⌋,
    y := -(idx : ℚ) * 150 - 100,
    speed := 3 + r.speedR * 2,
    lane := ⌊r.laneR * 4⌋ }

/-- The state `initGame` of the 2D `RacingGame` produces. -/
def initGame2 (mode : GameMode) (r : ℕ → IRand) : GameState2 :=
  let cfg := getModeConfig2 mode
  { mode := mode, score := 0, time := 0, speed := 0, position := 0, lap := 1,
    isPlaying := false, isPaused := false, gameOver := false, playerX := 0,
    enemies := (List.range cfg.enemies).map (fun j => initEnemy2 j (r j)),
    roadOffset := 0, countdown := 3 }

/-- `initGame` of the 2D game followed by the countdown completion. -/
def startGame2 (mode : GameMode) (r : ℕ → IRand) : GameState2 :=
  { initGame2 mode r with isPlaying := true, countdown := 0 }

/-- Whether the mode-parameterized time check of a 3D frame fires: the mode
has a finite time limit and the post-frame time has reached it. -/
def timeUp3 (s : GameState3) : Prop :=
  match (getModeConfig3 s.mode).timeLimit with
  | some tl => s.time + 1/60 ≥ tl
  | none => False

instance (s : GameState3) : Decidable (timeUp3 s) := by
  unfold timeUp3; exact match (getModeConfig3 s.mode).timeLimit with
    | some _ => inferInstance
    | none => inferInstance

/-!  ## Basic frame lemmas -/

set_option maxRecDepth 1000000
set_option allowUnsafeReducibility true
attribute [local semireducible] Rat.add Rat.mul Rat.inv Rat.sub

lemma advance3_of_not_stepping (s : GameState3) (i : Input)
    (h : s.isPlaying = false ∨ s.isPaused = true) : advance3 s i = s := by
  unfold advance3
  rcases h with h | h <;> simp [h]

lemma advance2_of_not_stepping (s : GameState2) (i : Input)
    (h : s.isPlaying = false ∨ s.isPaused = true) : advance2 s i = s := by
  unfold advance2
  rcases h with h | h <;> simp [h]

lemma step3_mode (s : GameState3) (i : Input) : (step3 s i).mode = s.mode := by
  simp only [step3]
  repeat' split
  all_goals rfl

lemma advance3_mode (s : GameState3) (i : Input) : (advance3 s i).mode = s.mode := by
  unfold advance3
  split_ifs with h
  · exact step3_mode s i
  · rfl

lemma run3_mode (s : GameState3) (l : List Input) : (run3 s l).mode = s.mode := by
  induction l generalizing s with
  | nil => rfl
  | cons i is ih => rw [run3, ih, advance3_mode]

/-- In one 3D frame body, either the game does not end (and `isPlaying` is
kept) or it ends and `isPlaying` is simultaneously cleared. -/
lemma step3_flags (s : GameState3) (i : Input) (h : s.gameOver = false) :
    ((step3 s i).gameOver = false ∧ (step3 s i).isPlaying = s.isPlaying) ∨
    ((step3 s i).gameOver = true ∧ (step3 s i).isPlaying = false) := by
  simp only [step3]
  repeat' split
  all_goals simp_all

/-- The one-sided lifecycle invariant of the 3D game: a `gameOver` state is
never still `isPlaying`. -/
def Inv3 (s : GameState3) : Prop := s.gameOver = true → s.isPlaying = false

lemma inv3_advance (s : GameState3) (i : Input) (h : Inv3 s) : Inv3 (advance3 s i) := by
  unfold advance3
  split_ifs with hg
  · rcases step3_flags s i (by
      rcases hb : s.gameOver with _ | _
      · rfl
      · exact absurd (h hb) (by simp [hg.1])) with ⟨h1, _⟩ | ⟨_, h2⟩
    · intro hc; rw [hc] at h1; cases h1
    · intro _; exact h2
  · exact h

lemma inv3_run (s : GameState3) (l : List Input) (h : Inv3 s) : Inv3 (run3 s l) := by
  induction l generalizing s with
  | nil => exact h
  | cons i is ih => exact ih _ (inv3_advance s i h)

lemma advance3_of_ended (s : GameState3) (i : Input) (hInv : Inv3 s)
    (h : s.gameOver = true) : advance3 s i = s :=
  advance3_of_not_stepping s i (Or.inl (hInv h))

lemma run3_of_ended (s : GameState3) (l : List Input) (hInv : Inv3 s)
    (h : s.gameOver = true) : run3 s l = s := by
  induction l with
  | nil => rfl
  | cons i is ih => rw [run3, advance3_of_ended s i hInv h, ih]

lemma emits3_of_ended (s : GameState3) (l : List Input) (hInv : Inv3 s)
    (h : s.gameOver = true) : emits3 s l = [] := by
  induction l with
  | nil => rfl
  | cons i is ih =>
    have hg : ¬(s.isPlaying = true ∧ s.isPaused = false) := by simp [hInv h]
    rw [emits3]
    unfold advet3
    rw [if_neg hg]
    simpa using ih

/-- The same single-frame flags fact for the 2D loop. -/
lemma step2_flags (s : GameState2) (i : Input) (h : s.gameOver = false) :
    ((step2 s i).gameOver = false ∧ (step2 s i).isPlaying = s.isPlaying) ∨
    ((step2 s i).gameOver = true ∧ (step2 s i).isPlaying = false) := by
  simp only [step2]
  repeat' split
  all_goals simp_all

/-- The one-sided lifecycle invariant of the 2D game. -/
def Inv2 (s : GameState2) : Prop := s.gameOver = true → s.isPlaying = false

lemma inv2_advance (s : GameState2) (i : Input) (h : Inv2 s) : Inv2 (advance2 s i) := by
  unfold advance2
  split_ifs with hg
  · rcases step2_flags s i (by
      rcases hb : s.gameOver with _ | _
      · rfl
      · exact absurd (h hb) (by simp [hg.1])) with ⟨h1, _⟩ | ⟨_, h2⟩
    · intro hc; rw [hc] at h1; cases h1
    · intro _; exact h2
  · exact h

lemma inv2_run (s : GameState2) (l : List Input) (h : Inv2 s) : Inv2 (run2 s l) := by
  induction l generalizing s with
  | nil => exact h
  | cons i is ih => exact ih _ (inv2_advance s i h)

lemma advance2_of_ended (s : GameState2) (i : Input) (hInv : Inv2 s)
    (h : s.gameOver = true) : advance2 s i = s :=
  advance2_of_not_stepping s i (Or.inl (hInv h))

lemma run2_of_ended (s : GameState2) (l : List Input) (hInv : Inv2 s)
    (h : s.gameOver = true) : run2 s l = s := by
  induction l with
  | nil => rfl
  | cons i is ih => rw [run2, advance2_of_ended s i hInv h, ih]

lemma emits2_of_ended (s : GameState2) (l : List Input) (hInv : Inv2 s)
    (h : s.gameOver = true) : emits2 s l = [] := by
  induction l with
  | nil => rfl
  | cons i is ih =>
    have hg : ¬(s.isPlaying = true ∧ s.isPaused = false) := by simp [hInv h]
    rw [emits2]
    unfold advet2
    rw [if_neg hg]
    simpa using ih

/-! ## Field extraction lemmas for one frame -/

lemma step3_speed (s : GameState3) (i : Input) : (step3 s i).speed = newSpeed3 s i := by
  simp only [step3]
  repeat' split
  all_goals rfl

lemma step3_time (s : GameState3) (i : Input) : (step3 s i).time = s.time + 1/60 := by
  simp only [step3]
  repeat' split
  all_goals rfl

lemma step3_position (s : GameState3) (i : Input) :
    (step3 s i).position = s.position + newSpeed3 s i := by
  simp only [step3]
  repeat' split
  all_goals rfl

lemma step3_score (s : GameState3) (i : Input) :
    (step3 s i).score = s.score + newSpeed3 s i * 10 * scoreMult3 s i := by
  simp only [step3]
  repeat' split
  all_goals rfl

lemma step3_enemies (s : GameState3) (i : Input) : (step3 s i).enemies = newEnemies3 s i := by
  simp only [step3]
  repeat' split
  all_goals rfl

lemma step2_speed (s : GameState2) (i : Input) : (step2 s i).speed = newSpeed2 s i := by
  simp only [step2]
  repeat' split
  all_goals rfl

lemma step2_time (s : GameState2) (i : Input) : (step2 s i).time = s.time + 1/60 := by
  simp only [step2]
  repeat' split
  all_goals rfl

lemma step2_position (s : GameState2) (i : Input) :
    (step2 s i).position = s.position + newSpeed2 s i := by
  simp only [step2]
  repeat' split
  all_goals rfl

lemma step2_score (s : GameState2) (i : Input) :
    (step2 s i).score = s.score + newSpeed2 s i * 10 := by
  simp only [step2]
  repeat' split
  all_goals rfl

lemma step2_enemies (s : GameState2) (i : Input) : (step2 s i).enemies = newEnemies2 s i := by
  simp only [step2]
  repeat' split
  all_goals rfl

/-! ## Speed bound lemmas -/

lemma maxSpeed3_ge (mode : GameMode) : 12 ≤ (getModeConfig3 mode).maxSpeed := by
  cases mode <;> norm_num [getModeConfig3]

lemma updSpeedKeys3_ge_two (cfg : Config3) (k : Keys) (v : ℚ)
    (hM : 12 ≤ cfg.maxSpeed) (h : 2 ≤ v) : 2 ≤ updSpeedKeys3 cfg k v := by
  unfold updSpeedKeys3
  split_ifs
  · exact le_min (by linarith) (by linarith)
  · exact le_trans (by norm_num) (le_max_right _ _)
  · exact le_trans (by norm_num) (le_max_right _ _)

lemma updSpeedKeys3_le_cap (cfg : Config3) (k : Keys) (v : ℚ)
    (hM : 12 ≤ cfg.maxSpeed) (h : v ≤ cfg.maxSpeed + 5) :
    updSpeedKeys3 cfg k v ≤ cfg.maxSpeed + 5 := by
  unfold updSpeedKeys3
  split_ifs
  · exact le_trans (min_le_right _ _) (by linarith)
  · exact max_le (by linarith) (by linarith)
  · exact max_le (by linarith) (by linarith)

lemma updSpeedKeys3_le_max (cfg : Config3) (k : Keys) (v : ℚ)
    (hM : 12 ≤ cfg.maxSpeed) (h : v ≤ cfg.maxSpeed) :
    updSpeedKeys3 cfg k v ≤ cfg.maxSpeed := by
  unfold updSpeedKeys3
  split_ifs
  · exact min_le_right _ _
  · exact max_le (by linarith) (by linarith)
  · exact max_le (by linarith) (by linarith)

lemma updNitro3_speed_ge_two (cfg : Config3) (k : Keys) (v n : ℚ)
    (hM : 12 ≤ cfg.maxSpeed) (h : 2 ≤ v) : 2 ≤ (updNitro3 cfg k v n).1 := by
  unfold updNitro3
  split_ifs
  · exact le_min (by linarith) (by linarith)
  · exact h
  · exact h

lemma updNitro3_speed_le_cap (cfg : Config3) (k : Keys) (v n : ℚ)
    (h : v ≤ cfg.maxSpeed + 5) : (updNitro3 cfg k v n).1 ≤ cfg.maxSpeed + 5 := by
  unfold updNitro3
  split_ifs
  · exact min_le_right _ _
  · exact h
  · exact h

lemma newSpeed3_ge_two (s : GameState3) (i : Input) (h : 2 ≤ s.speed) :
    2 ≤ newSpeed3 s i := by
  unfold newSpeed3 speedNitro3
  exact updNitro3_speed_ge_two _ _ _ _ (maxSpeed3_ge s.mode)
    (updSpeedKeys3_ge_two _ _ _ (maxSpeed3_ge s.mode) h)

lemma newSpeed3_le_cap (s : GameState3) (i : Input)
    (h : s.speed ≤ (getModeConfig3 s.mode).maxSpeed + 5) :
    newSpeed3 s i ≤ (getModeConfig3 s.mode).maxSpeed + 5 := by
  unfold newSpeed3 speedNitro3
  exact updNitro3_speed_le_cap _ _ _ _
    (updSpeedKeys3_le_cap _ _ _ (maxSpeed3_ge s.mode) h)

/-- The running speed invariant of the 3D loop: the speed stays in
`[2, modeMax + 5]`. -/
def SpeedInv3 (s : GameState3) : Prop :=
  2 ≤ s.speed ∧ s.speed ≤ (getModeConfig3 s.mode).maxSpeed + 5

lemma speedInv3_advance (s : GameState3) (i : Input) (h : SpeedInv3 s) :
    SpeedInv3 (advance3 s i) := by
  unfold advance3
  split_ifs with hg
  · refine ⟨?_, ?_⟩
    · rw [step3_speed]; exact newSpeed3_ge_two s i h.1
    · rw [step3_speed, step3_mode]; exact newSpeed3_le_cap s i h.2
  · exact h

lemma speedInv3_run (s : GameState3) (l : List Input) (h : SpeedInv3 s) :
    SpeedInv3 (run3 s l) := by
  induction l generalizing s with
  | nil => exact h
  | cons i is ih => exact ih _ (speedInv3_advance s i h)

lemma speedInv3_start (mode : GameMode) (r : ℕ → IRand) : SpeedInv3 (startGame3 mode r) := by
  constructor
  · norm_num [startGame3, initGame3]
  · have := maxSpeed3_ge mode
    simp only [startGame3, initGame3]
    linarith

lemma ite_zero_nonneg (c : Prop) [Decidable c] (x : ℚ) (hx : 0 ≤ x) :
    0 ≤ if c then x else 0 := by
  split
  · exact hx
  · exact le_refl 0

lemma scoreMult3_ge_one (s : GameState3) (i : Input) : 1 ≤ scoreMult3 s i := by
  unfold scoreMult3
  have h1 := ite_zero_nonneg
    ((getModeConfig3 s.mode).hasNitro = true ∧ usedNitro3 s i = true) (1/2 : ℚ) (by norm_num)
  have h2 := ite_zero_nonneg (newPerfect3 s i > 60) (3/10 : ℚ) (by norm_num)
  have h3 := ite_zero_nonneg
    (newSpeed3 s i > (getModeConfig3 s.mode).maxSpeed * (9/10)) (1/5 : ℚ) (by norm_num)
  linarith

lemma updSpeed2_nonneg (k : Keys) (v : ℚ) (h : 0 ≤ v) : 0 ≤ updSpeed2 k v := by
  unfold updSpeed2
  split_ifs
  · exact le_min (by linarith) (by norm_num)
  · exact le_max_right _ _
  · exact le_trans (by norm_num) (le_max_right _ _)

lemma speed2_advance (s : GameState2) (i : Input) (h : 0 ≤ s.speed) :
    0 ≤ (advance2 s i).speed := by
  unfold advance2
  split_ifs with hg
  · rw [step2_speed]; exact updSpeed2_nonneg _ _ h
  · exact h

lemma speed2_run (s : GameState2) (l : List Input) (h : 0 ≤ s.speed) :
    0 ≤ (run2 s l).speed := by
  induction l generalizing s with
  | nil => exact h
  | cons i is ih => exact ih _ (speed2_advance s i h)

/-! ## Shared concrete inputs for witnesses -/

/-- A valid do-nothing random oracle for one enemy update: respawn draws in
the middle of their ranges, aggressive roll high enough never to trigger a
lane shift. -/
def calmER : ERand := ⟨1/2, 1/10, 0, 0, 99/100⟩

/-- A valid init oracle putting an enemy into the leftmost lane. -/
def leftIR : IRand := ⟨1/10, 0, 1/10, 0, 0⟩

/-- A frame input with no key held. -/
def idleInput : Input := { keys := ⟨false, false, false, false, false⟩, rands := fun _ => calmER }

/-- A frame input holding only steer-right. -/
def rightInput : Input := { keys := ⟨false, true, false, false, false⟩, rands := fun _ => calmER }

/-- A frame input holding accelerate and the nitro key. -/
def upShiftInput : Input := { keys := ⟨false, false, true, false, true⟩, rands := fun _ => calmER }

/-- A frame input holding only brake. -/
def downInput : Input := { keys := ⟨false, false, false, true, false⟩, rands := fun _ => calmER }

/-! ## Claims -/

/-- C1: a GameState that has ended (`gameOver`) — which in every state the
game produces entails `isPlaying = false`, third conjunct — or that is
otherwise not in the playing lifecycle state (not playing, or paused) is
left completely unchanged by a simulation-frame invocation, in the 3D loop
and in the 2D loop alike. -/
theorem claim_C1_terminal_noop :
    (∀ (s : GameState3) (i : Input), s.isPlaying = false ∨ s.isPaused = true →
      advance3 s i = s) ∧
    (∀ (s : GameState3) (i : Input), Inv3 s → s.gameOver = true → advance3 s i = s) ∧
    (∀ (mode : GameMode) (r : ℕ → IRand) (l : List Input),
      Inv3 (run3 (startGame3 mode r) l)) ∧
    (∀ (s : GameState2) (i : Input), s.isPlaying = false ∨ s.isPaused = true →
      advance2 s i = s) ∧
    (∀ (s : GameState2) (i : Input), Inv2 s → s.gameOver = true → advance2 s i = s) := by
  refine ⟨advance3_of_not_stepping, advance3_of_ended, ?_, advance2_of_not_stepping,
    advance2_of_ended⟩
  intro mode r l
  exact inv3_run _ l (fun h => by simp [startGame3, initGame3] at h)

/-- C1 witness: a concrete ended 3D state is a fixed point of `advance3`. -/
theorem claim_C1_terminal_noop_witness :
    advance3 { startGame3 .classic (fun _ => leftIR) with gameOver := true, isPlaying := false }
      idleInput =
      { startGame3 .classic (fun _ => leftIR) with gameOver := true, isPlaying := false } :=
  claim_C1_terminal_noop.2.1
    { startGame3 .classic (fun _ => leftIR) with gameOver := true, isPlaying := false }
    idleInput (fun _ => rfl) rfl

/-- C2: over any frame sequence from a well-formed not-yet-ended state, the
`onGameEnd(score, time)` notification is emitted exactly once if the
session ends (on the frame of the transition, with the final score and
time, which later no-op frames preserve) and never otherwise — in the 3D
loop and in the 2D loop alike. -/
theorem claim_C2_single_notification :
    (∀ (s : GameState3) (l : List Input), Inv3 s → s.gameOver = false →
      emits3 s l = if (run3 s l).gameOver = true
        then [((run3 s l).score, (run3 s l).time)] else []) ∧
    (∀ (s : GameState2) (l : List Input), Inv2 s → s.gameOver = false →
      emits2 s l = if (run2 s l).gameOver = true
        then [((run2 s l).score, (run2 s l).time)] else []) := by
  constructor
  · intro s l
    induction l generalizing s with
    | nil => intro _ h0; simp [emits3, run3, h0]
    | cons i is ih =>
      intro hInv h0
      rw [emits3, run3]
      by_cases hg : s.isPlaying = true ∧ s.isPaused = false
      · have hadv : advance3 s i = step3 s i := by unfold advance3; rw [if_pos hg]
        have hadvet : advet3 s i = (step3 s i,
            if (step3 s i).gameOver = true
              then some ((step3 s i).score, (step3 s i).time) else none) := by
          unfold advet3; rw [if_pos hg]
        rcases step3_flags s i h0 with ⟨hg1, _⟩ | ⟨hg1, hp1⟩
        · rw [hadvet, hadv]
          simp only [hg1]
          simpa using ih (step3 s i) (fun hh => by rw [hg1] at hh; cases hh) hg1
        · have hInv' : Inv3 (step3 s i) := fun _ => hp1
          rw [hadvet, hadv, run3_of_ended _ is hInv' hg1, emits3_of_ended _ is hInv' hg1]
          simp [hg1]
      · have h1 : advet3 s i = (s, none) := by unfold advet3; rw [if_neg hg]
        have h2 : advance3 s i = s := by unfold advance3; rw [if_neg hg]
        rw [h1, h2]
        simpa using ih s hInv h0
  · intro s l
    induction l generalizing s with
    | nil => intro _ h0; simp [emits2, run2, h0]
    | cons i is ih =>
      intro hInv h0
      rw [emits2, run2]
      by_cases hg : s.isPlaying = true ∧ s.isPaused = false
      · have hadv : advance2 s i = step2 s i := by unfold advance2; rw [if_pos hg]
        have hadvet : advet2 s i = (step2 s i,
            if (step2 s i).gameOver = true
              then some ((step2 s i).score, (step2 s i).time) else none) := by
          unfold advet2; rw [if_pos hg]
        rcases step2_flags s i h0 with ⟨hg1, _⟩ | ⟨hg1, hp1⟩
        · rw [hadvet, hadv]
          simp only [hg1]
          simpa using ih (step2 s i) (fun hh => by rw [hg1] at hh; cases hh) hg1
        · have hInv' : Inv2 (step2 s i) := fun _ => hp1
          rw [hadvet, hadv, run2_of_ended _ is hInv' hg1, emits2_of_ended _ is hInv' hg1]
          simp [hg1]
      · have h1 : advet2 s i = (s, none) := by unfold advet2; rw [if_neg hg]
        have h2 : advance2 s i = s := by unfold advance2; rw [if_neg hg]
        rw [h1, h2]
        simpa using ih s hInv h0

lemma run3_append (s : GameState3) (l l' : List Input) :
    run3 s (l ++ l') = run3 (run3 s l) l' := by
  induction l generalizing s with
  | nil => rfl
  | cons i is ih => rw [List.cons_append, run3, run3, ih]

lemma run2_append (s : GameState2) (l l' : List Input) :
    run2 s (l ++ l') = run2 (run2 s l) l' := by
  induction l generalizing s with
  | nil => rfl
  | cons i is ih => rw [List.cons_append, run2, run2, ih]

lemma advance3_score_mono (s : GameState3) (i : Input) (h : 2 ≤ s.speed) :
    s.score ≤ (advance3 s i).score := by
  unfold advance3
  split_ifs with hg
  · rw [step3_score]
    have hv := newSpeed3_ge_two s i h
    have hm := scoreMult3_ge_one s i
    nlinarith
  · exact le_refl _

lemma run3_score_nonneg (s : GameState3) (l : List Input)
    (hs : SpeedInv3 s) (h0 : 0 ≤ s.score) : 0 ≤ (run3 s l).score := by
  induction l generalizing s with
  | nil => exact h0
  | cons i is ih =>
    exact ih _ (speedInv3_advance s i hs) (le_trans h0 (advance3_score_mono s i hs.1))

lemma advance2_score_mono (s : GameState2) (i : Input) (h : 0 ≤ s.speed) :
    s.score ≤ (advance2 s i).score := by
  unfold advance2
  split_ifs with hg
  · rw [step2_score]
    have hv : 0 ≤ newSpeed2 s i := updSpeed2_nonneg _ _ h
    nlinarith
  · exact le_refl _

lemma run2_score_nonneg (s : GameState2) (l : List Input)
    (hs : 0 ≤ s.speed) (h0 : 0 ≤ s.score) : 0 ≤ (run2 s l).score := by
  induction l generalizing s with
  | nil => exact h0
  | cons i is ih =>
    exact ih _ (speed2_advance s i hs) (le_trans h0 (advance2_score_mono s i hs))

/-- A 3D classic-mode playing state one frame away from the 90-second time
limit, with no enemies in range. -/
def nearEndState3 : GameState3 :=
  { startGame3 .classic (fun _ => leftIR) with time := 90, enemies := [] }

/-- C2 witness: from a concrete state one frame from time-out, two further
frames emit the notification exactly once, with the final score and time. -/
theorem claim_C2_single_notification_witness :
    emits3 nearEndState3 (List.replicate 2 idleInput) = [(50, 90 + 1/60)] := by
  rw [claim_C2_single_notification.1 nearEndState3 (List.replicate 2 idleInput)
    (fun h => by simp [nearEndState3, startGame3, initGame3] at h) (by rfl)]
  decide

/-- C7: every 3D frame adds to the score exactly `speed × 10 × multiplier`,
where the multiplier is `1` plus `0.5` if nitro was consumed this frame,
plus `0.3` if the (just-updated) perfect-driving counter exceeds 60 frames,
plus `0.2` if the new speed exceeds 90% of the mode maximum — the three
bonus components are added, not multiplied. -/
theorem claim_C7_scoring (s : GameState3) (i : Input) :
    (step3 s i).score = s.score + newSpeed3 s i * 10 *
      (1 + (if (getModeConfig3 s.mode).hasNitro = true ∧ usedNitro3 s i = true
              then (1/2 : ℚ) else 0)
         + (if newPerfect3 s i > 60 then (3/10 : ℚ) else 0)
         + (if newSpeed3 s i > (getModeConfig3 s.mode).maxSpeed * (9/10)
              then (1/5 : ℚ) else 0)) := by
  rw [step3_score]
  rfl

/-- C8: from the start of any session, the score is non-negative and never
decreases across frames, in the 3D loop and in the 2D loop alike. -/
theorem claim_C8_monotone_score :
    (∀ (mode : GameMode) (r : ℕ → IRand) (l : List Input) (i : Input),
      (run3 (startGame3 mode r) l).score ≤ (run3 (startGame3 mode r) (l ++ [i])).score) ∧
    (∀ (mode : GameMode) (r : ℕ → IRand) (l : List Input),
      0 ≤ (run3 (startGame3 mode r) l).score) ∧
    (∀ (mode : GameMode) (r : ℕ → IRand) (l : List Input) (i : Input),
      (run2 (startGame2 mode r) l).score ≤ (run2 (startGame2 mode r) (l ++ [i])).score) ∧
    (∀ (mode : GameMode) (r : ℕ → IRand) (l : List Input),
      0 ≤ (run2 (startGame2 mode r) l).score) := by
  refine ⟨?_, ?_, ?_, ?_⟩
  · intro mode r l i
    rw [run3_append]
    exact advance3_score_mono _ i (speedInv3_run _ l (speedInv3_start mode r)).1
  · intro mode r l
    exact run3_score_nonneg _ l (speedInv3_start mode r) (by norm_num [startGame3, initGame3])
  · intro mode r l i
    rw [run2_append]
    exact advance2_score_mono _ i
      (speed2_run _ l (by norm_num [startGame2, initGame2]))
  · intro mode r l
    exact run2_score_nonneg _ l (by norm_num [startGame2, initGame2])
      (by norm_num [startGame2, initGame2])

/-- On a frame whose nitro branch does not fire, the new speed is the plain
key-controlled update, which cannot exceed the mode maximum if the incoming
speed did not. -/
lemma newSpeed3_le_max_noBoost (s : GameState3) (i : Input)
    (hni : ¬((getModeConfig3 s.mode).hasNitro = true ∧ i.keys.shift = true ∧
      s.nitroBoost > 0))
    (h : s.speed ≤ (getModeConfig3 s.mode).maxSpeed) :
    newSpeed3 s i ≤ (getModeConfig3 s.mode).maxSpeed := by
  unfold newSpeed3 speedNitro3 updNitro3
  rw [if_neg hni]
  split_ifs
  · exact updSpeedKeys3_le_max _ _ _ (maxSpeed3_ge s.mode) h
  · exact updSpeedKeys3_le_max _ _ _ (maxSpeed3_ge s.mode) h

/-- In a mode without nitro, the speed bound `modeMax` is preserved along
any run. -/
lemma run3_speed_le_max_noNitro (s : GameState3) (l : List Input)
    (hn : (getModeConfig3 s.mode).hasNitro = false)
    (h : s.speed ≤ (getModeConfig3 s.mode).maxSpeed) :
    (run3 s l).speed ≤ (getModeConfig3 (run3 s l).mode).maxSpeed := by
  induction l generalizing s with
  | nil => exact h
  | cons i is ih =>
    rw [run3]
    refine ih (advance3 s i) (by rw [advance3_mode]; exact hn) ?_
    rw [advance3_mode]
    unfold advance3
    split_ifs with hg
    · rw [step3_speed]
      exact newSpeed3_le_max_noBoost s i (by rw [hn]; simp) h
    · exact h

/-- C4 counterexample: a reachable competition-mode sequence — 15 frames of
accelerate-plus-nitro from the session start, then one brake frame with the
nitro key released (so nitro is not active on that frame) — leaves the
speed at `20.3`, strictly above the competition mode maximum of `20`.  The
claim that speed never exceeds `modeMax` on nitro-inactive frames is
therefore false. -/
theorem claim_C4_counterexample :
    (run3 (startGame3 .competition (fun _ => leftIR))
        (List.replicate 15 upShiftInput)).isPlaying = true ∧
    downInput.keys.shift = false ∧
    (getModeConfig3 .competition).maxSpeed = 20 ∧
    (run3 (startGame3 .competition (fun _ => leftIR))
        (List.replicate 15 upShiftInput ++ [downInput])).speed = 203/10 := by
  refine ⟨by decide, rfl, rfl, by decide⟩

/-- C4 (amended): on every run from a session start the speed stays within
`[2, modeMax + 5]`; a frame on which nitro is not active (nitro unavailable,
key released, or meter empty) never raises the speed above the mode
maximum — but after a nitro frame the speed can stay above `modeMax` for
several nitro-inactive frames while it decays, so `modeMax` is a bound for
nitro-free sessions (third conjunct), not for every nitro-inactive frame. -/
theorem claim_C4_speed_bounds :
    (∀ (mode : GameMode) (r : ℕ → IRand) (l : List Input),
      2 ≤ (run3 (startGame3 mode r) l).speed ∧
      (run3 (startGame3 mode r) l).speed ≤ (getModeConfig3 mode).maxSpeed + 5) ∧
    (∀ (s : GameState3) (i : Input),
      ¬((getModeConfig3 s.mode).hasNitro = true ∧ i.keys.shift = true ∧ s.nitroBoost > 0) →
      s.speed ≤ (getModeConfig3 s.mode).maxSpeed →
      (advance3 s i).speed ≤ (getModeConfig3 s.mode).maxSpeed) ∧
    (∀ (mode : GameMode) (r : ℕ → IRand) (l : List Input),
      (getModeConfig3 mode).hasNitro = false →
      (run3 (startGame3 mode r) l).speed ≤ (getModeConfig3 mode).maxSpeed) := by
  refine ⟨?_, ?_, ?_⟩
  · intro mode r l
    obtain ⟨h1, h2⟩ := speedInv3_run _ l (speedInv3_start mode r)
    rw [run3_mode] at h2
    exact ⟨h1, h2⟩
  · intro s i hni h
    unfold advance3
    split_ifs with hg
    · rw [step3_speed]
      exact newSpeed3_le_max_noBoost s i hni h
    · exact h
  · intro mode r l hn
    have h2 := run3_speed_le_max_noNitro (startGame3 mode r) l hn (by
      have hsp : (startGame3 mode r).speed = 5 := rfl
      rw [hsp]
      linarith [maxSpeed3_ge (startGame3 mode r).mode])
    rwa [run3_mode] at h2

/-! ## Collision resolution and termination lemmas -/

lemma step3_health_of_collision (s : GameState3) (i : Input)
    (hc : collision3 s i = true) (hh : (getModeConfig3 s.mode).hasHealth = true) :
    (step3 s i).health = max (s.health - 10) 0 := by
  simp only [step3, hc, hh]
  repeat' split
  all_goals simp_all

lemma step3_gameOver_of_collision_health (s : GameState3) (i : Input)
    (hc : collision3 s i = true) (hh : (getModeConfig3 s.mode).hasHealth = true)
    (hg : s.gameOver = false) :
    ((step3 s i).gameOver = true ↔ (s.health - 10 ≤ 0 ∨ timeUp3 s)) := by
  rcases htl : (getModeConfig3 s.mode).timeLimit with _ | tl <;>
    · simp only [step3, hc, hh, htl, timeUp3, hg]
      repeat' split
      all_goals simp_all [max_le_iff]

lemma step3_gameOver_of_collision_noHealth (s : GameState3) (i : Input)
    (hc : collision3 s i = true) (hh : (getModeConfig3 s.mode).hasHealth = false) :
    (step3 s i).gameOver = true := by
  simp only [step3, hc, hh]
  repeat' split
  all_goals simp_all

/-- A stationary enemy overlapping the player's rectangle every frame (its
speed is 0, so it never advances or respawns, and its aggressiveness is 0,
so the blocking branch is skipped). -/
def parkedEnemy : Enemy3 :=
  { x := some 0, z := 0, speed := 0, lane := 1, color := some "#ff4444",
    aggressiveness := 0 }

/-- A competition-mode playing state whose single enemy collides with the
player on every frame. -/
def healthColState : GameState3 :=
  { mode := .competition, score := 0, time := 0, speed := 5, position := 0,
    lap := 1, isPlaying := true, isPaused := false, gameOver := false,
    playerX := 0, enemies := [parkedEnemy], roadOffset := 0, countdown := 0,
    nitroBoost := 100, health := 100, perfectDriving := 0, lastCollision := 0,
    competitionRank := 1 }

/-- The same colliding scenario in classic mode (no health system). -/
def classicColState : GameState3 := { healthColState with mode := .classic }

/-- C3: on a 3D frame that detects a player-enemy overlap, a health-bearing
mode subtracts exactly 10 health (floored at 0) and ends the session
exactly when health reaches 0 (or the time limit fires on the same frame),
while a mode without health ends immediately; concretely, from health 100,
9 colliding frames leave health 10 with the session still live, the 10th
ends it, and in classic mode the first colliding frame ends it. -/
theorem claim_C3_collision_health :
    (∀ (s : GameState3) (i : Input), collision3 s i = true → s.gameOver = false →
      (((getModeConfig3 s.mode).hasHealth = true →
        (step3 s i).health = max (s.health - 10) 0 ∧
        ((step3 s i).gameOver = true ↔ (s.health - 10 ≤ 0 ∨ timeUp3 s))) ∧
       ((getModeConfig3 s.mode).hasHealth = false → (step3 s i).gameOver = true))) ∧
    (run3 healthColState (List.replicate 9 idleInput)).health = 10 ∧
    (run3 healthColState (List.replicate 9 idleInput)).gameOver = false ∧
    (run3 healthColState (List.replicate 10 idleInput)).health = 0 ∧
    (run3 healthColState (List.replicate 10 idleInput)).gameOver = true ∧
    (step3 classicColState idleInput).gameOver = true := by
  refine ⟨?_, by decide, by decide, by decide, by decide, by decide⟩
  intro s i hc hg
  exact ⟨fun hh => ⟨step3_health_of_collision s i hc hh,
      step3_gameOver_of_collision_health s i hc hh hg⟩,
    fun hh => step3_gameOver_of_collision_noHealth s i hc hh⟩

/-- C3 witness: the universally quantified part of the claim applied to the
concrete colliding competition state. -/
theorem claim_C3_collision_health_witness :
    (step3 healthColState idleInput).health = max (100 - 10) 0 ∧
    ((step3 healthColState idleInput).gameOver = true ↔
      ((100 : ℚ) - 10 ≤ 0 ∨ timeUp3 healthColState)) :=
  (claim_C3_collision_health.1 healthColState idleInput (by decide) rfl).1 rfl

/-- C5: with no collision on the frame, a 3D or 2D frame ends the session
exactly when the mode's time limit is reached by the post-frame clock:
`timeAttack` at 60 s, `quickRace` at 30 s, `classic` at 90 s, `competition`
at 120 s, and never for `endless`. -/
theorem claim_C5_time_limits :
    (∀ (s : GameState3) (i : Input), s.gameOver = false → collision3 s i = false →
      ((s.mode = GameMode.timeAttack →
         ((step3 s i).gameOver = true ↔ s.time + 1/60 ≥ 60)) ∧
       (s.mode = GameMode.quickRace →
         ((step3 s i).gameOver = true ↔ s.time + 1/60 ≥ 30)) ∧
       (s.mode = GameMode.classic →
         ((step3 s i).gameOver = true ↔ s.time + 1/60 ≥ 90)) ∧
       (s.mode = GameMode.competition →
         ((step3 s i).gameOver = true ↔ s.time + 1/60 ≥ 120)) ∧
       (s.mode = GameMode.endless → (step3 s i).gameOver = false))) ∧
    (∀ (s : GameState2) (i : Input), s.gameOver = false → collision2 s i = false →
      ((s.mode = GameMode.timeAttack →
         ((step2 s i).gameOver = true ↔ s.time + 1/60 ≥ 60)) ∧
       (s.mode = GameMode.quickRace →
         ((step2 s i).gameOver = true ↔ s.time + 1/60 ≥ 30)) ∧
       (s.mode = GameMode.classic →
         ((step2 s i).gameOver = true ↔ s.time + 1/60 ≥ 90)) ∧
       (s.mode = GameMode.competition →
         ((step2 s i).gameOver = true ↔ s.time + 1/60 ≥ 120)) ∧
       (s.mode = GameMode.endless → (step2 s i).gameOver = false))) := by
  constructor
  · intro s i hg hc
    refine ⟨?_, ?_, ?_, ?_, ?_⟩ <;>
      · intro hm
        simp only [step3, hc, hm, getModeConfig3, hg]
        repeat' split
        all_goals simp_all
  · intro s i hg hc
    refine ⟨?_, ?_, ?_, ?_, ?_⟩ <;>
      · intro hm
        simp only [step2, hc, hm, getModeConfig2, hg]
        repeat' split
        all_goals simp_all

/-- C5 witness: a concrete timeAttack state one frame before 60 s ends on
the next frame. -/
theorem claim_C5_time_limits_witness :
    (step3 { nearEndState3 with mode := .timeAttack, time := 60 } idleInput).gameOver = true := by
  rw [((claim_C5_time_limits.1 { nearEndState3 with mode := .timeAttack, time := 60 }
    idleInput rfl (by decide)).1 rfl)]
  norm_num

/-- C4 witness: a nitro-inactive frame from a concrete in-bounds state does
not push the speed above the mode maximum. -/
theorem claim_C4_speed_bounds_witness :
    (advance3 (startGame3 .classic (fun _ => leftIR)) idleInput).speed ≤
      (getModeConfig3 .classic).maxSpeed :=
  claim_C4_speed_bounds.2.1 (startGame3 .classic (fun _ => leftIR)) idleInput
    (by decide) (by decide)

/-! ## Enemy recycling and lane safety -/

lemma newEnemies3_length (s : GameState3) (i : Input) :
    (newEnemies3 s i).length = s.enemies.length := by
  unfold newEnemies3
  exact List.length_mapIdx

lemma newEnemies3_get (s : GameState3) (i : Input) (j : ℕ) (hj : j < s.enemies.length)
    (hj' : j < (newEnemies3 s i).length) :
    (newEnemies3 s i).get ⟨j, hj'⟩ =
      updEnemy3 (getModeConfig3 s.mode) (newPlayerX3 s i) (i.rands j)
        (s.enemies.get ⟨j, hj⟩) := by
  unfold newEnemies3
  exact List.get_mapIdx _ _ j hj _

lemma newEnemies2_length (s : GameState2) (i : Input) :
    (newEnemies2 s i).length = s.enemies.length := by
  unfold newEnemies2
  exact List.length_mapIdx

/-- A classic-mode playing state whose single enemy is one frame from
crossing the `z > 15` recycling threshold. -/
def farEnemyState : GameState3 :=
  { classicColState with
      enemies := [{ x := some (-2), z := 13, speed := 3, lane := 0,
                    color := some "#44ff44", aggressiveness := 1/5 }] }

/-- C6: no frame ever adds or removes an enemy (in either loop), and on any
3D frame an enemy crossing the visible-ahead threshold (`z > 15` after
advancing) is repositioned on that same frame to a strictly negative depth
`-20 - rand·10` behind the player with a freshly drawn random lane, speed
and color. -/
theorem claim_C6_enemy_recycling :
    (∀ (s : GameState3) (i : Input), (advance3 s i).enemies.length = s.enemies.length) ∧
    (∀ (s : GameState3) (i : Input), (step3 s i).enemies = newEnemies3 s i) ∧
    (∀ (s : GameState3) (i : Input) (j : ℕ) (hj : j < s.enemies.length),
      ValidER (i.rands j) →
      (s.enemies.get ⟨j, hj⟩).z + (s.enemies.get ⟨j, hj⟩).speed > 15 →
      ∀ hj' : j < (newEnemies3 s i).length,
        ((newEnemies3 s i).get ⟨j, hj'⟩).z = -20 - (i.rands j).depthR * 10 ∧
        ((newEnemies3 s i).get ⟨j, hj'⟩).z < 0 ∧
        ((newEnemies3 s i).get ⟨j, hj'⟩).lane = ⌊(i.rands j).laneR * 3⌋ ∧
        ((newEnemies3 s i).get ⟨j, hj'⟩).speed = 3 + (i.rands j).speedR * 3 ∧
        ((newEnemies3 s i).get ⟨j, hj'⟩).color = colorsGet ⌊(i.rands j).colorR * 6⌋) ∧
    (∀ (s : GameState2) (i : Input), (advance2 s i).enemies.length = s.enemies.length) := by
  refine ⟨?_, step3_enemies, ?_, ?_⟩
  · intro s i
    unfold advance3
    split_ifs
    · rw [step3_enemies]; exact newEnemies3_length s i
    · rfl
  · intro s i j hj hv hfar hj'
    rw [newEnemies3_get s i j hj hj']
    simp only [updEnemy3]
    rw [if_pos hfar]
    refine ⟨rfl, ?_, rfl, rfl, rfl⟩
    show (-20 : ℚ) - (i.rands j).depthR * 10 < 0
    linarith [hv.1.1]
  · intro s i
    unfold advance2
    split_ifs
    · rw [step2_enemies]; exact newEnemies2_length s i
    · rfl

/-- C6 witness: the recycling clause applied to the concrete
threshold-crossing enemy. -/
theorem claim_C6_enemy_recycling_witness :
    ((newEnemies3 farEnemyState idleInput).get ⟨0, by decide⟩).z = -25 ∧
    ((newEnemies3 farEnemyState idleInput).get ⟨0, by decide⟩).lane = 0 ∧
    ((newEnemies3 farEnemyState idleInput).get ⟨0, by decide⟩).speed = 3 := by
  obtain ⟨h1, _, h3, h4, _⟩ := claim_C6_enemy_recycling.2.2.1 farEnemyState idleInput 0
    (by decide) (by decide) (by decide) (by decide)
  exact ⟨h1.trans (by decide), h3.trans (by decide), h4.trans (by decide)⟩

/-! ## C9: the two loops are similar but not equal -/

/-- A classic-mode 2D playing state with no enemies on screen. -/
def plainState2 : GameState2 :=
  { mode := .classic, score := 0, time := 0, speed := 5, position := 0, lap := 1,
    isPlaying := true, isPaused := false, gameOver := false, playerX := 0,
    enemies := [], roadOffset := 0, countdown := 0 }

/-- The matching 3D playing state: every field shared with the 2D
`GameState` has the same value. -/
def plainState3 : GameState3 :=
  { mode := .classic, score := 0, time := 0, speed := 5, position := 0, lap := 1,
    isPlaying := true, isPaused := false, gameOver := false, playerX := 0,
    enemies := [], roadOffset := 0, countdown := 0, nitroBoost := 100,
    health := 100, perfectDriving := 0, lastCollision := 0, competitionRank := 1 }

/-- A frame input holding only accelerate. -/
def upInput : Input := { keys := ⟨false, false, true, false, false⟩, rands := fun _ => calmER }

/-- C9 counterexample: from equal shared starting fields, the same held key
(accelerate) and the same random draws, the 2D frame yields speed `5.5`
(step `+0.5`) while the 3D frame yields `5.3` (step `+0.3`): the two loops
do not compute the same next values for the shared state fields. -/
theorem claim_C9_counterexample :
    plainState2.mode = plainState3.mode ∧
    plainState2.time = plainState3.time ∧
    plainState2.score = plainState3.score ∧
    plainState2.speed = plainState3.speed ∧
    plainState2.playerX = plainState3.playerX ∧
    plainState2.position = plainState3.position ∧
    (step2 plainState2 upInput).speed = 11/2 ∧
    (step3 plainState3 upInput).speed = 53/10 ∧
    (step2 plainState2 upInput).speed ≠ (step3 plainState3 upInput).speed := by
  refine ⟨rfl, rfl, rfl, rfl, rfl, rfl, by decide, by decide, by decide⟩

/-- C9 (amended): the two loops share the skeleton — identical per-mode
time limits, identical time accrual (`+1/60` per frame), identical position
integration (`+speed`), and the same base scoring rate (`speed × 10`, the
3D loop multiplying in its bonus multiplier, which reduces to the 2D rule
whenever no bonus applies) — but they differ in tuning constants (speed
steps and caps, lateral steps and bounds), as the counterexample shows. -/
theorem claim_C9_loop_correspondence :
    (∀ mode : GameMode, (getModeConfig2 mode).timeLimit = (getModeConfig3 mode).timeLimit) ∧
    (∀ (s : GameState2) (i : Input), (step2 s i).time = s.time + 1/60) ∧
    (∀ (s : GameState3) (i : Input), (step3 s i).time = s.time + 1/60) ∧
    (∀ (s : GameState2) (i : Input), (step2 s i).position = s.position + newSpeed2 s i) ∧
    (∀ (s : GameState3) (i : Input), (step3 s i).position = s.position + newSpeed3 s i) ∧
    (∀ (s : GameState2) (i : Input), (step2 s i).score = s.score + newSpeed2 s i * 10) ∧
    (∀ (s : GameState3) (i : Input), scoreMult3 s i = 1 →
      (step3 s i).score = s.score + newSpeed3 s i * 10) := by
  refine ⟨?_, step2_time, step3_time, step2_position, step3_position, step2_score, ?_⟩
  · intro mode
    cases mode <;> rfl
  · intro s i hm
    rw [step3_score, hm, mul_one]

/-- C9 witness: the bonus-free scoring clause applied to a concrete
bonus-free frame. -/
theorem claim_C9_loop_correspondence_witness :
    (step3 plainState3 idleInput).score =
      plainState3.score + newSpeed3 plainState3 idleInput * 10 :=
  claim_C9_loop_correspondence.2.2.2.2.2.2 plainState3 idleInput (by decide)

/-! ## C10: aggressive-AI lane shift -/

lemma lanes3Get_of_range (k : ℤ) (h0 : 0 ≤ k) (h3 : k < 3) :
    ∃ c, lanes3Get k = some c ∧ c ∈ LANES3 := by
  have hk : k = 0 ∨ k = 1 ∨ k = 2 := by omega
  rcases hk with hk | hk | hk <;> subst hk <;> exact ⟨_, rfl, by decide⟩

lemma floor_mul3_range (r : ℚ) (h : ValidR r) : 0 ≤ ⌊r * 3⌋ ∧ ⌊r * 3⌋ < 3 := by
  obtain ⟨h0, h1⟩ := h
  constructor
  · exact Int.floor_nonneg.mpr (by linarith)
  · rw [Int.floor_lt]
    push_cast
    linarith

/-- JavaScript round of the blocking target `(playerX + 2)/2` lands in the
valid lane range `0..2` exactly while the player is within `[-3, 3)`. -/
lemma jsRound_target_range (px : ℚ) (h1 : -3 ≤ px) (h2 : px < 3) :
    0 ≤ jsRound ((px + 2) / 2) ∧ jsRound ((px + 2) / 2) < 3 := by
  unfold jsRound
  constructor
  · exact Int.floor_nonneg.mpr (by linarith)
  · rw [Int.floor_lt]
    push_cast
    linarith

/-- One enemy update keeps its lane index in the valid range `0..2` (and its
lateral position the matching `LANES` entry) provided its incoming lane/x
are consistent and in range, the random draws are valid, and the player's
lateral position lies in `[-3, 3)` so that the blocking target lane is in
range. -/
lemma updEnemy3_lane_safe (cfg : Config3) (px : ℚ) (r : ERand) (e : Enemy3)
    (hv : ValidER r) (hp1 : -3 ≤ px) (hp2 : px < 3)
    (hl : 0 ≤ e.lane ∧ e.lane < 3) (hx : e.x = lanes3Get e.lane) :
    (0 ≤ (updEnemy3 cfg px r e).lane ∧ (updEnemy3 cfg px r e).lane < 3) ∧
    (updEnemy3 cfg px r e).x = lanes3Get (updEnemy3 cfg px r e).lane := by
  simp only [updEnemy3]
  split_ifs with h1 h2 h3
  · exact ⟨floor_mul3_range r.laneR hv.2.1, rfl⟩
  · exact ⟨jsRound_target_range px hp1 hp2, rfl⟩
  · exact ⟨hl, hx⟩
  · exact ⟨hl, hx⟩

/-- C10 (amended): after a 3D frame, every enemy whose incoming lane/x are
consistent and in range keeps a valid lane index and a lateral position
equal to a `LANES` entry, provided the player's lateral position is within
`[-3, 3)`; every valid lane index yields a defined `LANES` coordinate.
(The restriction on the player position is necessary: the counterexample
shows a reachable blocking shift to lane index 3 — out of range, with
`undefined` lateral position — once the player is beyond `3`.) -/
theorem claim_C10_lane_safety :
    (∀ (s : GameState3) (i : Input), (step3 s i).enemies = newEnemies3 s i) ∧
    (∀ (s : GameState3) (i : Input) (j : ℕ) (hj : j < s.enemies.length),
      ValidER (i.rands j) →
      -3 ≤ newPlayerX3 s i → newPlayerX3 s i < 3 →
      (0 ≤ (s.enemies.get ⟨j, hj⟩).lane ∧ (s.enemies.get ⟨j, hj⟩).lane < 3) →
      (s.enemies.get ⟨j, hj⟩).x = lanes3Get (s.enemies.get ⟨j, hj⟩).lane →
      ∀ hj' : j < (newEnemies3 s i).length,
        (0 ≤ ((newEnemies3 s i).get ⟨j, hj'⟩).lane ∧
          ((newEnemies3 s i).get ⟨j, hj'⟩).lane < 3) ∧
        ((newEnemies3 s i).get ⟨j, hj'⟩).x =
          lanes3Get ((newEnemies3 s i).get ⟨j, hj'⟩).lane) ∧
    (∀ k : ℤ, 0 ≤ k → k < 3 → ∃ c, lanes3Get k = some c ∧ c ∈ LANES3) := by
  refine ⟨step3_enemies, ?_, lanes3Get_of_range⟩
  intro s i j hj hv hp1 hp2 hl hx hj'
  rw [newEnemies3_get s i j hj hj']
  exact updEnemy3_lane_safe _ _ _ _ hv hp1 hp2 hl hx

/-- C10 witness: the lane-safety clause applied to a concrete in-range
frame. -/
theorem claim_C10_lane_safety_witness :
    (0 ≤ ((newEnemies3 farEnemyState idleInput).get ⟨0, by decide⟩).lane ∧
      ((newEnemies3 farEnemyState idleInput).get ⟨0, by decide⟩).lane < 3) ∧
    ((newEnemies3 farEnemyState idleInput).get ⟨0, by decide⟩).x =
      lanes3Get ((newEnemies3 farEnemyState idleInput).get ⟨0, by decide⟩).lane :=
  claim_C10_lane_safety.2.1 farEnemyState idleInput 0 (by decide) (by decide)
    (by decide) (by decide) (by decide) (by decide) (by decide)

/-- The init oracle of the C10 counterexample session: enemy 0 is created
with lane 0, x `-2`, speed 3 and aggressiveness `0.95`; all other enemies
with lane 0, x `-2`, speed 3 and aggressiveness `0.5`. -/
def blockIR : ℕ → IRand := fun j =>
  if j = 0 then ⟨1/10, 0, 1/10, 0, 9/10⟩ else leftIR

/-- The per-frame oracle for enemy 0 of the C10 counterexample: respawn
draws at frames 7, 22 and 30 steer it to arrive in lane 2 next to the
player at frame 36, where its blocking roll (`0.01`) finally succeeds. -/
def blockER (t : ℕ) : ERand :=
  if t = 7 then ⟨9/10, 1/10, 0, 0, 99/100⟩
  else if t = 22 then ⟨8/10, 1/10, 5/6, 0, 99/100⟩
  else if t = 30 then ⟨4/10, 7/10, 1/3, 0, 99/100⟩
  else if t = 36 then ⟨1/2, 1/10, 0, 0, 1/100⟩
  else calmER

/-- Frame `t` of the C10 counterexample: steer-right held throughout. -/
def blockInput (t : ℕ) : Input :=
  { keys := ⟨false, true, false, false, false⟩,
    rands := fun j => if j = 0 then blockER t else calmER }

/-- The state reached by the 36-frame C10 counterexample session. -/
def blockRun : GameState3 :=
  run3 (startGame3 .competition blockIR) ((List.range 36).map (fun t => blockInput (t + 1)))

/-- C10 counterexample: in a reachable competition session (36 frames of
steering right from the start, with valid random draws), the aggressive-AI
blocking shift targets lane `round((3.6 + 2)/2) = 3`, an out-of-range index:
after the 36th frame, enemy 0 has lane index 3 and an `undefined`
(`LANES[3]`) lateral position, and the session is still live. -/
theorem claim_C10_counterexample :
    blockRun.isPlaying = true ∧
    blockRun.playerX = 18/5 ∧
    (blockRun.enemies.headD parkedEnemy).lane = 3 ∧
    ¬((blockRun.enemies.headD parkedEnemy).lane < 3) ∧
    (blockRun.enemies.headD parkedEnemy).x = none ∧
    lanes3Get 3 = none := by
  refine ⟨by decide, by decide, by decide, by decide, by decide, by decide⟩

end Racing
